/-
Verification of the Land Registry validation consensus engine.

Shallow embedding of:
  backend/app/services/consensus_engine.py   (ConsensusEngine)
  backend/app/services/geolocation_service.py (calculate_distance_weight)
  backend/app/routes/validation_routes.py    (create_validation, get_claim_validations,
                                              delete_validation)
  backend/app/models/validation.py           (Validation, ValidationConsensus)

Conventions of the embedding:
  * Python floats are modelled as exact rationals (ℚ).  Every constant the
    engine uses (2.0, 1.5, 1.25, 1.0, 0.75, 0.5, 70.0, percentages) is exactly
    representable, and the claims under scrutiny only exercise exact values.
  * datetimes are modelled as natural-number timestamps, passed in explicitly
    where the Python calls datetime.utcnow().
  * The Haversine distance (GeolocationService.calculate_distance, which uses
    transcendental functions) is kept abstract: engine-level functions take it
    as a parameter `distFn`.  No claim depends on its values.
  * Mongo documents become Lean structures; a collection is a List; find_one
    is List.find?; save of a new document is an append; an aborting HTTP
    exception is an error value returned before any state change.
  * Python truthiness of an Optional[float] (None and 0 are both falsy) is
    modelled by pyTruthy; of an Optional[str] by strTruthy; an absent or
    empty dict is modelled as none.
-/
import Mathlib

namespace LandRegistry

/-- A lat/lon dictionary as read with .get: either key may be missing. -/
structure Coord where
  lat : Option ℚ
  lon : Option ℚ
  deriving DecidableEq, Repr

/-- Python truthiness of an Optional[float]: None and 0 / 0.0 are falsy. -/
def pyTruthy : Option ℚ → Bool
  | none => false
  | some q => q ≠ 0

/-- Python truthiness of an Optional[str]: None and "" are falsy. -/
def strTruthy : Option String → Bool
  | none => false
  | some s => s ≠ ""

/-- models/validation.py, class Validation (fields the engine reads/writes). -/
structure Validation where
  id : String
  claim_id : String
  validator_id : String
  validator_name : String
  validator_trust_score : ℚ
  action : String
  reason : Option String
  validator_location : Option Coord
  distance_to_claim : Option ℚ
  created_at : ℕ
  weight : ℚ
  was_correct : Option Bool
  trust_score_impact : Option ℚ
  deriving DecidableEq, Repr

/-- models/validation.py, class ValidationConsensus. -/
structure ValidationConsensus where
  claim_id : String
  total_validations : ℕ
  vouch_count : ℕ
  dispute_count : ℕ
  unsure_count : ℕ
  vouch_weight : ℚ
  dispute_weight : ℚ
  unsure_weight : ℚ
  total_weight : ℚ
  consensus_reached : Bool
  consensus_action : Option String
  consensus_percentage : Option ℚ
  confidence_level : Option String
  minimum_validations_met : Bool
  consensus_threshold_met : Bool
  first_validation_at : Option ℕ
  consensus_reached_at : Option ℕ
  last_updated_at : ℕ
  avg_validator_trust_score : Option ℚ
  avg_distance_to_claim : Option ℚ
  deriving DecidableEq, Repr

/-- models/claim.py, class Claim (fields the consensus path reads/writes). -/
structure Claim where
  id : String
  user_id : String
  location : Option String
  coordinates : Option Coord
  status : String
  validated_at : Option ℕ
  deriving DecidableEq, Repr

/-- models/user.py, class User (fields the validation routes read). -/
structure User where
  id : String
  name : String
  trust_score : ℚ
  role : String
  deriving DecidableEq, Repr

/-- A fresh ValidationConsensus document: the Field(default=...) values of
models/validation.py, with claim_id and first_validation_at as passed by
ConsensusEngine.process_validation and last_updated_at from its
default_factory (the construction time `now`). -/
def newConsensus (claimId : String) (firstAt : ℕ) (now : ℕ) : ValidationConsensus :=
  { claim_id := claimId
    total_validations := 0
    vouch_count := 0
    dispute_count := 0
    unsure_count := 0
    vouch_weight := 0
    dispute_weight := 0
    unsure_weight := 0
    total_weight := 0
    consensus_reached := false
    consensus_action := none
    consensus_percentage := none
    confidence_level := none
    minimum_validations_met := false
    consensus_threshold_met := false
    first_validation_at := some firstAt
    consensus_reached_at := none
    last_updated_at := now
    avg_validator_trust_score := none
    avg_distance_to_claim := none }

/-- ConsensusEngine.calculate_trust_weight. -/
def calculate_trust_weight (trust_score : ℚ) : ℚ :=
  if trust_score ≥ 90 then 2
  else if trust_score ≥ 80 then 3/2
  else if trust_score ≥ 70 then 5/4
  else if trust_score ≥ 60 then 1
  else if trust_score ≥ 50 then 3/4
  else 1/2

/-- GeolocationService.calculate_distance_weight (all three schemes). -/
def geo_calculate_distance_weight (distance_km : ℚ) (weight_scheme : String) : ℚ :=
  if weight_scheme = "strict" then
    if distance_km ≤ 2 then 2
    else if distance_km ≤ 5 then 3/2
    else if distance_km ≤ 10 then 1
    else if distance_km ≤ 25 then 1/2
    else 1/4
  else if weight_scheme = "lenient" then
    if distance_km ≤ 10 then 3/2
    else if distance_km ≤ 25 then 5/4
    else if distance_km ≤ 50 then 1
    else 3/4
  else
    if distance_km ≤ 5 then 3/2
    else if distance_km ≤ 10 then 5/4
    else if distance_km ≤ 25 then 1
    else if distance_km ≤ 50 then 3/4
    else 1/2

/-- ConsensusEngine.calculate_distance_weight: 1.0 when no distance,
otherwise the geolocation service's "standard" scheme. -/
def calculate_distance_weight : Option ℚ → ℚ
  | none => 1
  | some d => geo_calculate_distance_weight d "standard"

/-- ConsensusEngine.calculate_validation_weight:
base 1.0 × trust weight × (distance weight when a distance is present). -/
def calculate_validation_weight (trust_score : ℚ) (distance_km : Option ℚ) : ℚ :=
  match distance_km with
  | some d => 1 * calculate_trust_weight trust_score * calculate_distance_weight (some d)
  | none => 1 * calculate_trust_weight trust_score

/-- Python round(x, 2): round half to even at the second decimal. -/
def round2 (x : ℚ) : ℚ :=
  let y := x * 100
  let r : ℤ := if y - ⌊y⌋ = 1/2 then (if 2 ∣ ⌊y⌋ then ⌊y⌋ else ⌊y⌋ + 1) else round y
  (r : ℚ) / 100

/-- ConsensusEngine._get_confidence_level. -/
def get_confidence_level (percentage : ℚ) : String :=
  if percentage ≥ 95 then "very_high"
  else if percentage ≥ 85 then "high"
  else if percentage ≥ 75 then "medium"
  else "low"

/-- Result dict of ConsensusEngine.check_consensus. -/
inductive ConsensusResult where
  | notReached
  | reached (action : String) (percentage : ℚ) (confidence : String)
  deriving DecidableEq, Repr

/-- ConsensusEngine.check_consensus: weighted 70% threshold on vouch, then
dispute. -/
def check_consensus (c : ValidationConsensus) : ConsensusResult :=
  if c.total_weight = 0 then .notReached
  else
    let vouch_percentage := c.vouch_weight / c.total_weight * 100
    let dispute_percentage := c.dispute_weight / c.total_weight * 100
    if vouch_percentage ≥ 70 then
      .reached "validated" (round2 vouch_percentage) (get_confidence_level vouch_percentage)
    else if dispute_percentage ≥ 70 then
      .reached "rejected" (round2 dispute_percentage) (get_confidence_level dispute_percentage)
    else .notReached

/-- The distance computation at the top of ConsensusEngine.process_validation:
runs only when `validation.validator_location and claim.location` is truthy and
`claim.coordinates` is a truthy dict, and only if all four coordinates read
with .get are truthy (Python: None and 0 are both falsy). -/
def compute_distance_km (distFn : ℚ → ℚ → ℚ → ℚ → ℚ) (v : Validation) (claim : Claim) :
    Option ℚ :=
  if v.validator_location.isSome ∧ strTruthy claim.location then
    match claim.coordinates, v.validator_location with
    | some co, some vl =>
        if pyTruthy co.lat ∧ pyTruthy co.lon ∧ pyTruthy vl.lat ∧ pyTruthy vl.lon then
          some (distFn (co.lat.getD 0) (co.lon.getD 0) (vl.lat.getD 0) (vl.lon.getD 0))
        else none
    | _, _ => none
  else none

/-- process_validation's mutation of the incoming Validation document:
distance_to_claim is assigned only when a distance was computed; weight is
always assigned. -/
def enrich_validation (distFn : ℚ → ℚ → ℚ → ℚ → ℚ) (v : Validation) (claim : Claim) :
    Validation :=
  let dk := compute_distance_km distFn v claim
  { v with
    distance_to_claim := match dk with | some d => some d | none => v.distance_to_claim
    weight := calculate_validation_weight v.validator_trust_score dk }

/-- process_validation lines updating counts and weighted sums: increment
total_validations, the matching action's count and weighted sum, add the weight
to total_weight, stamp last_updated_at. -/
def tally_vote (c : ValidationConsensus) (action : String) (w : ℚ) (now : ℕ) :
    ValidationConsensus :=
  let c := { c with total_validations := c.total_validations + 1 }
  let c :=
    if action = "vouch" then
      { c with vouch_count := c.vouch_count + 1, vouch_weight := c.vouch_weight + w }
    else if action = "dispute" then
      { c with dispute_count := c.dispute_count + 1, dispute_weight := c.dispute_weight + w }
    else if action = "unsure" then
      { c with unsure_count := c.unsure_count + 1, unsure_weight := c.unsure_weight + w }
    else c
  { c with total_weight := c.total_weight + w, last_updated_at := now }

/-- process_validation's statistics block: averages recomputed over all
validations fetched for the claim (trust scores of every vote; distances of
the votes that have one). -/
def update_stats (c : ValidationConsensus) (all_validations : List Validation) :
    ValidationConsensus :=
  if all_validations.isEmpty then c
  else
    let trust_scores := all_validations.map (·.validator_trust_score)
    let c := { c with
      avg_validator_trust_score := some (trust_scores.sum / trust_scores.length) }
    let distances := all_validations.filterMap (·.distance_to_claim)
    if distances.isEmpty then c
    else { c with avg_distance_to_claim := some (distances.sum / distances.length) }

/-- process_validation's consensus block: set minimum_validations_met from the
3-validator minimum; when met, run check_consensus and, on a reached verdict,
overwrite the deciding fields.  Returns the consensus action when this step's
check reported reached (triggering the claim-status / trust-score side
effects). -/
def eval_consensus_step (c : ValidationConsensus) (now : ℕ) :
    ValidationConsensus × Option String :=
  let c := { c with minimum_validations_met := decide (c.total_validations ≥ 3) }
  if c.minimum_validations_met then
    match check_consensus c with
    | .reached a p conf =>
        ({ c with
            consensus_reached := true
            consensus_action := some a
            consensus_percentage := some p
            confidence_level := some conf
            consensus_threshold_met := true
            consensus_reached_at := some now }, some a)
    | .notReached => (c, none)
  else (c, none)

/-- ConsensusEngine.update_claim_status: set the claim status from the
consensus action and stamp validated_at. -/
def update_claim_status (claim : Claim) (consensus_action : String) (now : ℕ) : Claim :=
  let claim :=
    if consensus_action = "validated" then { claim with status := "validated" }
    else if consensus_action = "rejected" then { claim with status := "rejected" }
    else claim
  { claim with validated_at := some now }

/-- The per-vote body of ConsensusEngine.update_validator_trust_scores. -/
def trust_adjust (consensus_action : String) (v : Validation) : Validation :=
  if v.action = "unsure" then
    { v with was_correct := none, trust_score_impact := some 0 }
  else if (v.action = "vouch" ∧ consensus_action = "validated")
      ∨ (v.action = "dispute" ∧ consensus_action = "rejected") then
    let impact : ℚ :=
      if v.validator_trust_score ≥ 80 then 2 * (5/2)
      else if v.validator_trust_score ≥ 60 then 2 * (3/2)
      else 2
    { v with was_correct := some true, trust_score_impact := some impact }
  else
    let impact : ℚ :=
      if v.validator_trust_score ≥ 80 then (-1) * 3
      else if v.validator_trust_score ≥ 60 then (-1) * 2
      else -1
    { v with was_correct := some false, trust_score_impact := some impact }

/-- ConsensusEngine.update_validator_trust_scores: the adjustment mapped over
every validation fetched for the claim. -/
def update_validator_trust_scores (consensus_action : String) (vs : List Validation) :
    List Validation :=
  vs.map (trust_adjust consensus_action)

/-- ConsensusEngine.process_validation, side effects (websocket, notification,
activity log) elided: enrich and persist the validation, get-or-create the
claim's consensus, tally, recompute statistics, evaluate consensus and, on a
reached verdict, update the claim and re-score every vote of the claim.
Returns (claim, validation ledger, consensus) as stored afterwards. -/
def process_validation (distFn : ℚ → ℚ → ℚ → ℚ → ℚ) (now : ℕ)
    (v : Validation) (claim : Claim) (ledger : List Validation)
    (consensus0 : Option ValidationConsensus) :
    Claim × List Validation × ValidationConsensus :=
  let v1 := enrich_validation distFn v claim
  let ledger1 := ledger ++ [v1]
  let c0 := match consensus0 with
    | some c => c
    | none => newConsensus claim.id v.created_at now
  let c1 := tally_vote c0 v.action v1.weight now
  let c2 := update_stats c1 (ledger1.filter (fun x => x.claim_id = claim.id))
  let step := eval_consensus_step c2 now
  match step.2 with
  | some a =>
      let claim2 := update_claim_status claim a now
      let ledger2 := ledger1.map (fun x => if x.claim_id = claim.id then trust_adjust a x else x)
      (claim2, ledger2, step.1)
  | none => (claim, ledger1, step.1)

/-- Sequential application of a timestamped stream of votes through
process_validation, threading claim, ledger and the stored consensus
document. -/
def apply_votes (distFn : ℚ → ℚ → ℚ → ℚ → ℚ) :
    List (ℕ × Validation) → Claim → List Validation → Option ValidationConsensus →
    Claim × List Validation × Option ValidationConsensus
  | [], claim, ledger, co => (claim, ledger, co)
  | (now, v) :: rest, claim, ledger, co =>
      let r := process_validation distFn now v claim ledger co
      apply_votes distFn rest r.1 r.2.1 (some r.2.2)

/-- The persistent stores the validation routes touch: the claims collection,
the validations collection (in insertion order) and the validation_consensus
collection. -/
structure SystemState where
  claims : List Claim
  validations : List Validation
  consensuses : List ValidationConsensus
  deriving DecidableEq, Repr

/-- Claim.get(claim_id). -/
def findClaim (st : SystemState) (claimId : String) : Option Claim :=
  st.claims.find? (fun c => c.id = claimId)

/-- ValidationConsensus.find_one(claim_id == ...). -/
def findConsensus (st : SystemState) (claimId : String) : Option ValidationConsensus :=
  st.consensuses.find? (fun c => c.claim_id = claimId)

/-- consensus.save(): replace the document for the claim, or insert it. -/
def saveConsensus (st : SystemState) (c : ValidationConsensus) : SystemState :=
  if st.consensuses.any (fun x => x.claim_id = c.claim_id) then
    { st with consensuses :=
        st.consensuses.map (fun x => if x.claim_id = c.claim_id then c else x) }
  else { st with consensuses := st.consensuses ++ [c] }

/-- claim.save(): replace the claim document by id. -/
def saveClaim (st : SystemState) (c : Claim) : SystemState :=
  { st with claims := st.claims.map (fun x => if x.id = c.id then c else x) }

/-- Request body of POST /validations/ (ValidationCreate). -/
structure ValidationCreate where
  claim_id : String
  action : String
  reason : Option String
  validator_location : Option Coord
  deriving DecidableEq, Repr

/-- The caller-error taxonomy of the validation routes. -/
inductive RouteError where
  | InvalidAction
  | MissingReason
  | ClaimNotFound
  | DuplicateVote
  | SelfValidation
  | ValidationNotFound
  | NotAuthorized
  | ConsensusAlreadyReached
  deriving DecidableEq, Repr

/-- validation_routes.create_validation: guards in source order (action
validity, dispute reason, claim existence, duplicate (claimId, validatorId),
self-validation), each aborting before any write; then the vote is persisted
and processed through the consensus engine.  An error leaves the state
untouched. -/
def create_validation (distFn : ℚ → ℚ → ℚ → ℚ → ℚ) (now : ℕ) (newId : String)
    (st : SystemState) (current_user : User) (d : ValidationCreate) :
    Option RouteError × SystemState :=
  if ¬ (d.action = "vouch" ∨ d.action = "dispute" ∨ d.action = "unsure") then
    (some .InvalidAction, st)
  else if d.action = "dispute" ∧ ¬ strTruthy d.reason then
    (some .MissingReason, st)
  else
    match findClaim st d.claim_id with
    | none => (some .ClaimNotFound, st)
    | some claim =>
      if st.validations.any
          (fun v => v.claim_id = d.claim_id ∧ v.validator_id = current_user.id) then
        (some .DuplicateVote, st)
      else if claim.user_id = current_user.id then
        (some .SelfValidation, st)
      else
        let v : Validation :=
          { id := newId
            claim_id := d.claim_id
            validator_id := current_user.id
            validator_name := current_user.name
            validator_trust_score := current_user.trust_score
            action := d.action
            reason := d.reason
            validator_location := d.validator_location
            distance_to_claim := none
            created_at := now
            weight := 1
            was_correct := none
            trust_score_impact := none }
        let r := process_validation distFn now v claim st.validations
          (findConsensus st d.claim_id)
        let st1 := { st with validations := r.2.1 }
        let st2 := saveClaim st1 r.1
        (none, saveConsensus st2 r.2.2)

/-- GET /validations/claim/{claim_id} (and
ConsensusEngine.get_claim_validations): all validations of the claim, sorted
by "-created_at", i.e. descending created_at. -/
def get_claim_validations (validations : List Validation) (claimId : String) :
    List Validation :=
  List.insertionSort (fun a b => b.created_at ≤ a.created_at)
    (validations.filter (fun v => v.claim_id = claimId))

/-- validation_routes.delete_validation: look the vote up, check permissions,
refuse when the claim's consensus is reached; otherwise delete the vote.  No
recomputation of the consensus document happens afterwards (the route only
logs that it "may need recalculation"). -/
def delete_validation (st : SystemState) (validation_id : String) (current_user : User) :
    Option RouteError × SystemState :=
  match st.validations.find? (fun v => v.id = validation_id) with
  | none => (some .ValidationNotFound, st)
  | some v =>
    if v.validator_id ≠ current_user.id ∧ current_user.role ≠ "admin" then
      (some .NotAuthorized, st)
    else
      match findConsensus st v.claim_id with
      | some c =>
        if c.consensus_reached then (some .ConsensusAlreadyReached, st)
        else (none, { st with
          validations := st.validations.filter (fun w => w.id ≠ validation_id) })
      | none => (none, { st with
          validations := st.validations.filter (fun w => w.id ≠ validation_id) })

/-- Modelled from the spec: the aggregate that a full rebuild-from-scratch
over a vote list yields — counts, weighted sums and total_weight rebuilt by
tallying every remaining vote (spec 4.2 deleteVote: "triggers full aggregate
recomputation from remaining votes (rebuild-from-scratch)").  The routes never
implement this; it is the comparison point for the delete-vote claim. -/
def rebuild_aggregate (c : ValidationConsensus) (vs : List Validation) (now : ℕ) :
    ValidationConsensus :=
  vs.foldl (fun acc v => tally_vote acc v.action v.weight now)
    { c with
      total_validations := 0
      vouch_count := 0, dispute_count := 0, unsure_count := 0
      vouch_weight := 0, dispute_weight := 0, unsure_weight := 0
      total_weight := 0 }

/-! ### Concrete scenario material -/

/-- A pending claim without geodata, owned by "owner". -/
def claim0 : Claim :=
  { id := "c1", user_id := "owner", location := none, coordinates := none,
    status := "pending", validated_at := none }

/-- A location-less vote on claim "c1" by validator `vid` with the given
snapshotted trust score, action and creation time. -/
def mkVote (id : String) (vid : String) (trust : ℚ) (action : String) (t : ℕ) : Validation :=
  { id := id, claim_id := "c1", validator_id := vid, validator_name := vid,
    validator_trust_score := trust, action := action, reason := none,
    validator_location := none, distance_to_claim := none, created_at := t,
    weight := 1, was_correct := none, trust_score_impact := none }

/-- A stand-in Haversine function (its values are never used by the
scenarios: their votes carry no location). -/
def zeroDist : ℚ → ℚ → ℚ → ℚ → ℚ := fun _ _ _ _ => 0

/-- Three trust-60 vouches (weight 1.0 each): consensus at 100%. -/
def run_three_vouches : Claim × List Validation × Option ValidationConsensus :=
  apply_votes zeroDist
    [(1, mkVote "v1" "a" 60 "vouch" 1), (2, mkVote "v2" "b" 60 "vouch" 2),
     (3, mkVote "v3" "c" 60 "vouch" 3)] claim0 [] none

/-- The same claim after a fourth, dissenting trust-60 dispute vote is applied
to the already-reached state. -/
def run_fourth_dispute : Claim × List Validation × ValidationConsensus :=
  process_validation zeroDist 4 (mkVote "v4" "d" 60 "dispute" 4)
    run_three_vouches.1 run_three_vouches.2.1 run_three_vouches.2.2

/-- The spec's threshold example: weights [2.0, 2.0, 1.0] via trust scores
[95, 96, 60], actions [vouch, vouch, dispute]. -/
def run_threshold_example : Claim × List Validation × Option ValidationConsensus :=
  apply_votes zeroDist
    [(1, mkVote "v1" "a" 95 "vouch" 1), (2, mkVote "v2" "b" 96 "vouch" 2),
     (3, mkVote "v3" "c" 60 "dispute" 3)] claim0 [] none

/-- Two trust-95 vouches (weight 2.0 each, 100% vouch share). -/
def run_two_heavy_vouches : Claim × List Validation × Option ValidationConsensus :=
  apply_votes zeroDist
    [(1, mkVote "v1" "a" 95 "vouch" 1), (2, mkVote "v2" "b" 95 "vouch" 2)] claim0 [] none

/-- The same claim after a third trust-95 vouch. -/
def run_third_heavy_vouch : Claim × List Validation × ValidationConsensus :=
  process_validation zeroDist 3 (mkVote "v3" "c" 95 "vouch" 3)
    run_two_heavy_vouches.1 run_two_heavy_vouches.2.1 run_two_heavy_vouches.2.2

/-- A consensus document in the reached state (as after three unanimous
trust-60 vouches), used to instantiate the monotonicity results. -/
def reachedConsensusLit : ValidationConsensus :=
  { claim_id := "c1", total_validations := 3, vouch_count := 3, dispute_count := 0,
    unsure_count := 0, vouch_weight := 3, dispute_weight := 0, unsure_weight := 0,
    total_weight := 3, consensus_reached := true, consensus_action := some "validated",
    consensus_percentage := some 100, confidence_level := some "very_high",
    minimum_validations_met := true, consensus_threshold_met := true,
    first_validation_at := some 1, consensus_reached_at := some 3, last_updated_at := 3,
    avg_validator_trust_score := some 60, avg_distance_to_claim := none }

/-- claim0 once consensus "validated" is applied at time 3. -/
def claim_validated3 : Claim := { claim0 with status := "validated", validated_at := some 3 }

/-- claim0 once consensus "validated" is (re-)applied at time 4. -/
def claim_validated4 : Claim := { claim0 with status := "validated", validated_at := some 4 }

/-- Aggregate after one trust-60 vouch. -/
def c60_1 : ValidationConsensus :=
  { newConsensus "c1" 1 1 with
    total_validations := 1
    vouch_count := 1
    vouch_weight := 1
    total_weight := 1
    avg_validator_trust_score := some 60 }

/-- Aggregate after two trust-60 vouches. -/
def c60_2 : ValidationConsensus :=
  { c60_1 with
    total_validations := 2
    vouch_count := 2
    vouch_weight := 2
    total_weight := 2
    last_updated_at := 2 }

/-- Aggregate after the fourth (dispute) vote hits the reached state: the
evaluator re-runs and overwrites percentage and confidence. -/
def c60_4 : ValidationConsensus :=
  { reachedConsensusLit with
    total_validations := 4
    dispute_count := 1
    dispute_weight := 1
    total_weight := 4
    consensus_percentage := some 75
    confidence_level := some "medium"
    consensus_reached_at := some 4
    last_updated_at := 4 }

/-- Aggregate after one trust-95 vouch (weight 2.0). -/
def q95_1 : ValidationConsensus :=
  { newConsensus "c1" 1 1 with
    total_validations := 1
    vouch_count := 1
    vouch_weight := 2
    total_weight := 2
    avg_validator_trust_score := some 95 }

/-- Aggregate after trust-95 and trust-96 vouches (weights 2.0 + 2.0). -/
def q95_2 : ValidationConsensus :=
  { q95_1 with
    total_validations := 2
    vouch_count := 2
    vouch_weight := 4
    total_weight := 4
    last_updated_at := 2
    avg_validator_trust_score := some (191/2) }

/-- Aggregate of the spec's threshold example after the trust-60 dispute:
weights [2, 2, 1] on [vouch, vouch, dispute]. -/
def q95_3 : ValidationConsensus :=
  { q95_2 with
    total_validations := 3
    dispute_count := 1
    dispute_weight := 1
    total_weight := 5
    consensus_reached := true
    consensus_action := some "validated"
    consensus_percentage := some 80
    confidence_level := some "medium"
    minimum_validations_met := true
    consensus_threshold_met := true
    consensus_reached_at := some 3
    last_updated_at := 3
    avg_validator_trust_score := some (251/3) }

/-- Aggregate after two trust-95 vouches. -/
def h95_2 : ValidationConsensus :=
  { q95_1 with
    total_validations := 2
    vouch_count := 2
    vouch_weight := 4
    total_weight := 4
    last_updated_at := 2 }

/-- Aggregate after the third trust-95 vouch: consensus at 100%. -/
def h95_3 : ValidationConsensus :=
  { h95_2 with
    total_validations := 3
    vouch_count := 3
    vouch_weight := 6
    total_weight := 6
    consensus_reached := true
    consensus_action := some "validated"
    consensus_percentage := some 100
    confidence_level := some "very_high"
    minimum_validations_met := true
    consensus_threshold_met := true
    consensus_reached_at := some 3
    last_updated_at := 3 }

/-- An aggregate with three votes whose whole weight is one vouch, used to
instantiate the evaluation-gate theorem. -/
def gate_witness_consensus : ValidationConsensus :=
  { newConsensus "c1" 1 1 with
    total_validations := 3
    vouch_count := 3
    vouch_weight := 1
    total_weight := 1 }

/-- A claim with a human-readable location and coordinates whose latitude is
exactly 0 (on the equator). -/
def claim_geo : Claim :=
  { claim0 with location := some "Plot 7", coordinates := some ⟨some 0, some 36⟩ }

/-- A vote that supplies a validator location. -/
def vote_geo : Validation :=
  { mkVote "v1" "a" 60 "vouch" 1 with validator_location := some ⟨some 1, some 36⟩ }

/-- A distance function with a recognizable nonzero value, to show the
distance path is never taken. -/
def dist42 : ℚ → ℚ → ℚ → ℚ → ℚ := fun _ _ _ _ => 42

/-- The validator who cast vote "v1". -/
def user_a : User := { id := "a", name := "a", trust_score := 60, role := "resident" }

/-- A second validator. -/
def user_b : User := { id := "b", name := "b", trust_score := 60, role := "resident" }

/-- The owner of claim0. -/
def user_owner : User := { id := "owner", name := "o", trust_score := 50, role := "resident" }

/-- Store with claim0, the two trust-60 vouches and their (not reached)
aggregate — the state in which a deletion is allowed. -/
def delete_state : SystemState :=
  { claims := [claim0]
    validations := [mkVote "v1" "a" 60 "vouch" 1, mkVote "v2" "b" 60 "vouch" 2]
    consensuses := [c60_2] }

/-- The same store once consensus has been reached. -/
def delete_state_reached : SystemState :=
  { delete_state with consensuses := [reachedConsensusLit] }

/-- Store with claim0, one vote by "a" and its aggregate — the state used to
exercise the cast-vote guards. -/
def cast_state : SystemState :=
  { claims := [claim0]
    validations := [mkVote "v1" "a" 60 "vouch" 1]
    consensuses := [c60_1] }

/-- An aggregate in mid-flight: 4 votes, weights 5 vouch / 5 dispute, total
weight 10, no consensus.  Base state of the lost-update schedule. -/
def lost_update_base : ValidationConsensus :=
  { newConsensus "c1" 1 1 with
    total_validations := 4
    vouch_count := 2
    dispute_count := 2
    vouch_weight := 5
    dispute_weight := 5
    total_weight := 10
    minimum_validations_met := true
    avg_validator_trust_score := some 95 }

/-- What request handler 1 computes and saves after reading the stored
aggregate (find_one returns lost_update_base): one trust-95 vouch,
weight 2.0. -/
def concurrent_write_1 : ValidationConsensus :=
  (process_validation zeroDist 5 (mkVote "v5" "e" 95 "vouch" 5) claim0 []
    (some lost_update_base)).2.2

/-- What request handler 2 computes and saves after reading the same stored
aggregate — process_validation has no per-claim lock or transaction, so both
handlers' find_one can return the same document; the save that lands last
(this one) is the value the store keeps. -/
def concurrent_write_2 : ValidationConsensus :=
  (process_validation zeroDist 6 (mkVote "v6" "f" 95 "vouch" 6) claim0 []
    (some lost_update_base)).2.2

/-- The linearized outcome: handler 2 runs after handler 1's write. -/
def sequential_second_write : ValidationConsensus :=
  (process_validation zeroDist 6 (mkVote "v6" "f" 95 "vouch" 6) claim0 []
    (some concurrent_write_1)).2.2

/-- concurrent_write_1 spelt out. -/
def cw1_lit : ValidationConsensus :=
  { lost_update_base with
    total_validations := 5
    vouch_count := 3
    vouch_weight := 7
    total_weight := 12
    last_updated_at := 5 }

/-- concurrent_write_2 spelt out. -/
def cw2_lit : ValidationConsensus :=
  { lost_update_base with
    total_validations := 5
    vouch_count := 3
    vouch_weight := 7
    total_weight := 12
    last_updated_at := 6 }

/-- sequential_second_write spelt out. -/
def seq2_lit : ValidationConsensus :=
  { lost_update_base with
    total_validations := 6
    vouch_count := 4
    vouch_weight := 9
    total_weight := 14
    last_updated_at := 6 }

/-! ### Helper lemmas about the aggregate-update stages -/

theorem tally_vote_consensus_fields (c : ValidationConsensus) (a : String) (w : ℚ) (n : ℕ) :
    (tally_vote c a w n).consensus_reached = c.consensus_reached
    ∧ (tally_vote c a w n).consensus_threshold_met = c.consensus_threshold_met
    ∧ (tally_vote c a w n).total_validations = c.total_validations + 1 := by
  unfold tally_vote
  split_ifs <;> exact ⟨rfl, rfl, rfl⟩

theorem update_stats_consensus_fields (c : ValidationConsensus) (vs : List Validation) :
    (update_stats c vs).consensus_reached = c.consensus_reached
    ∧ (update_stats c vs).consensus_threshold_met = c.consensus_threshold_met
    ∧ (update_stats c vs).total_validations = c.total_validations := by
  simp only [update_stats]
  split_ifs <;> exact ⟨rfl, rfl, rfl⟩

theorem eval_consensus_step_reached_mono (c : ValidationConsensus) (n : ℕ)
    (h : c.consensus_reached = true) :
    (eval_consensus_step c n).1.consensus_reached = true := by
  simp only [eval_consensus_step]
  split_ifs with hmin
  · cases hc : check_consensus { c with minimum_validations_met := decide (c.total_validations ≥ 3) } <;>
      simp [hc, h]
  · simpa using h

theorem eval_consensus_step_inv (c : ValidationConsensus) (n : ℕ)
    (h : c.consensus_threshold_met = c.consensus_reached) :
    (eval_consensus_step c n).1.consensus_threshold_met =
      (eval_consensus_step c n).1.consensus_reached := by
  simp only [eval_consensus_step]
  split_ifs with hmin
  · cases hc : check_consensus { c with minimum_validations_met := decide (c.total_validations ≥ 3) } <;>
      simp [hc, h]
  · simpa using h

theorem eval_consensus_step_below_min (c : ValidationConsensus) (n : ℕ)
    (h : c.total_validations < 3) :
    (eval_consensus_step c n).1.consensus_reached = c.consensus_reached := by
  simp only [eval_consensus_step]
  have : decide (c.total_validations ≥ 3) = false := by
    simp [Nat.not_le.mpr h]
  simp [this]

/-- The consensus component returned by process_validation, as the composition
of the three update stages on the fetched-or-fresh document. -/
theorem process_validation_consensus_eq (distFn : ℚ → ℚ → ℚ → ℚ → ℚ) (now : ℕ)
    (v : Validation) (claim : Claim) (ledger : List Validation)
    (co : Option ValidationConsensus) :
    (process_validation distFn now v claim ledger co).2.2 =
      (eval_consensus_step
        (update_stats
          (tally_vote (co.getD (newConsensus claim.id v.created_at now)) v.action
            (enrich_validation distFn v claim).weight now)
          ((ledger ++ [enrich_validation distFn v claim]).filter
            (fun x => x.claim_id = claim.id))) now).1 := by
  cases co with
  | none =>
      simp only [process_validation, Option.getD]
      split <;> rfl
  | some c =>
      simp only [process_validation, Option.getD]
      split <;> rfl

theorem step60_1 :
    process_validation zeroDist 1 (mkVote "v1" "a" 60 "vouch" 1) claim0 [] none =
      (claim0, [mkVote "v1" "a" 60 "vouch" 1], c60_1) := by
  simp only [process_validation, enrich_validation, compute_distance_km,
    calculate_validation_weight, calculate_trust_weight, calculate_distance_weight,
    tally_vote, update_stats, eval_consensus_step, check_consensus, get_confidence_level,
    round2, newConsensus, mkVote, claim0, zeroDist, strTruthy, pyTruthy,
    trust_adjust, update_claim_status, c60_1]
  repeat (first
    | (simp only [String.reduceEq, reduceIte]; norm_num)
    | norm_num
    | simp)

theorem step60_2 :
    process_validation zeroDist 2 (mkVote "v2" "b" 60 "vouch" 2) claim0
        [mkVote "v1" "a" 60 "vouch" 1] (some c60_1) =
      (claim0, [mkVote "v1" "a" 60 "vouch" 1, mkVote "v2" "b" 60 "vouch" 2], c60_2) := by
  simp only [process_validation, enrich_validation, compute_distance_km,
    calculate_validation_weight, calculate_trust_weight, calculate_distance_weight,
    tally_vote, update_stats, eval_consensus_step, check_consensus, get_confidence_level,
    round2, newConsensus, mkVote, claim0, zeroDist, strTruthy, pyTruthy,
    trust_adjust, update_claim_status, c60_1, c60_2]
  repeat (first
    | (simp only [String.reduceEq, reduceIte]; norm_num)
    | norm_num
    | simp)

theorem step60_3 :
    process_validation zeroDist 3 (mkVote "v3" "c" 60 "vouch" 3) claim0
        [mkVote "v1" "a" 60 "vouch" 1, mkVote "v2" "b" 60 "vouch" 2] (some c60_2) =
      (claim_validated3,
       [{ mkVote "v1" "a" 60 "vouch" 1 with
            was_correct := some true
            trust_score_impact := some 3 },
        { mkVote "v2" "b" 60 "vouch" 2 with
            was_correct := some true
            trust_score_impact := some 3 },
        { mkVote "v3" "c" 60 "vouch" 3 with
            was_correct := some true
            trust_score_impact := some 3 }],
       reachedConsensusLit) := by
  simp only [process_validation, enrich_validation, compute_distance_km,
    calculate_validation_weight, calculate_trust_weight, calculate_distance_weight,
    tally_vote, update_stats, eval_consensus_step, check_consensus, get_confidence_level,
    round2, newConsensus, mkVote, claim0, zeroDist, strTruthy, pyTruthy,
    trust_adjust, update_claim_status, c60_1, c60_2, reachedConsensusLit, claim_validated3]
  repeat (first
    | (simp only [String.reduceEq, reduceIte]; norm_num)
    | norm_num
    | simp)

theorem step60_4 :
    process_validation zeroDist 4 (mkVote "v4" "d" 60 "dispute" 4) claim_validated3
        [{ mkVote "v1" "a" 60 "vouch" 1 with
            was_correct := some true
            trust_score_impact := some 3 },
         { mkVote "v2" "b" 60 "vouch" 2 with
            was_correct := some true
            trust_score_impact := some 3 },
         { mkVote "v3" "c" 60 "vouch" 3 with
            was_correct := some true
            trust_score_impact := some 3 }] (some reachedConsensusLit) =
      (claim_validated4,
       [{ mkVote "v1" "a" 60 "vouch" 1 with
            was_correct := some true
            trust_score_impact := some 3 },
        { mkVote "v2" "b" 60 "vouch" 2 with
            was_correct := some true
            trust_score_impact := some 3 },
        { mkVote "v3" "c" 60 "vouch" 3 with
            was_correct := some true
            trust_score_impact := some 3 },
        { mkVote "v4" "d" 60 "dispute" 4 with
            was_correct := some false
            trust_score_impact := some (-2) }],
       c60_4) := by
  simp only [process_validation, enrich_validation, compute_distance_km,
    calculate_validation_weight, calculate_trust_weight, calculate_distance_weight,
    tally_vote, update_stats, eval_consensus_step, check_consensus, get_confidence_level,
    round2, newConsensus, mkVote, claim0, zeroDist, strTruthy, pyTruthy,
    trust_adjust, update_claim_status, reachedConsensusLit, c60_4, claim_validated3,
    claim_validated4]
  repeat (first
    | (simp only [String.reduceEq, reduceIte]; norm_num)
    | norm_num
    | simp)

theorem run_three_vouches_eq :
    run_three_vouches =
      (claim_validated3,
       [{ mkVote "v1" "a" 60 "vouch" 1 with
            was_correct := some true
            trust_score_impact := some 3 },
        { mkVote "v2" "b" 60 "vouch" 2 with
            was_correct := some true
            trust_score_impact := some 3 },
        { mkVote "v3" "c" 60 "vouch" 3 with
            was_correct := some true
            trust_score_impact := some 3 }],
       some reachedConsensusLit) := by
  simp only [run_three_vouches, apply_votes, step60_1, step60_2, step60_3]

theorem run_fourth_dispute_eq :
    run_fourth_dispute =
      (claim_validated4,
       [{ mkVote "v1" "a" 60 "vouch" 1 with
            was_correct := some true
            trust_score_impact := some 3 },
        { mkVote "v2" "b" 60 "vouch" 2 with
            was_correct := some true
            trust_score_impact := some 3 },
        { mkVote "v3" "c" 60 "vouch" 3 with
            was_correct := some true
            trust_score_impact := some 3 },
        { mkVote "v4" "d" 60 "dispute" 4 with
            was_correct := some false
            trust_score_impact := some (-2) }],
       c60_4) := by
  simp only [run_fourth_dispute, run_three_vouches_eq, step60_4]

theorem stepq_1 :
    process_validation zeroDist 1 (mkVote "v1" "a" 95 "vouch" 1) claim0 [] none =
      (claim0, [{ mkVote "v1" "a" 95 "vouch" 1 with weight := 2 }], q95_1) := by
  simp only [process_validation, enrich_validation, compute_distance_km,
    calculate_validation_weight, calculate_trust_weight, calculate_distance_weight,
    tally_vote, update_stats, eval_consensus_step, check_consensus, get_confidence_level,
    round2, newConsensus, mkVote, claim0, zeroDist, strTruthy, pyTruthy,
    trust_adjust, update_claim_status, q95_1]
  repeat (first
    | (simp only [String.reduceEq, reduceIte]; norm_num)
    | norm_num
    | simp)

theorem stepq_2 :
    process_validation zeroDist 2 (mkVote "v2" "b" 96 "vouch" 2) claim0
        [{ mkVote "v1" "a" 95 "vouch" 1 with weight := 2 }] (some q95_1) =
      (claim0,
       [{ mkVote "v1" "a" 95 "vouch" 1 with weight := 2 },
        { mkVote "v2" "b" 96 "vouch" 2 with weight := 2 }], q95_2) := by
  simp only [process_validation, enrich_validation, compute_distance_km,
    calculate_validation_weight, calculate_trust_weight, calculate_distance_weight,
    tally_vote, update_stats, eval_consensus_step, check_consensus, get_confidence_level,
    round2, newConsensus, mkVote, claim0, zeroDist, strTruthy, pyTruthy,
    trust_adjust, update_claim_status, q95_1, q95_2]
  repeat (first
    | (simp only [String.reduceEq, reduceIte]; norm_num)
    | norm_num
    | simp)

theorem stepq_3 :
    process_validation zeroDist 3 (mkVote "v3" "c" 60 "dispute" 3) claim0
        [{ mkVote "v1" "a" 95 "vouch" 1 with weight := 2 },
         { mkVote "v2" "b" 96 "vouch" 2 with weight := 2 }] (some q95_2) =
      (claim_validated3,
       [{ mkVote "v1" "a" 95 "vouch" 1 with
            weight := 2
            was_correct := some true
            trust_score_impact := some 5 },
        { mkVote "v2" "b" 96 "vouch" 2 with
            weight := 2
            was_correct := some true
            trust_score_impact := some 5 },
        { mkVote "v3" "c" 60 "dispute" 3 with
            was_correct := some false
            trust_score_impact := some (-2) }],
       q95_3) := by
  simp only [process_validation, enrich_validation, compute_distance_km,
    calculate_validation_weight, calculate_trust_weight, calculate_distance_weight,
    tally_vote, update_stats, eval_consensus_step, check_consensus, get_confidence_level,
    round2, newConsensus, mkVote, claim0, zeroDist, strTruthy, pyTruthy,
    trust_adjust, update_claim_status, q95_1, q95_2, q95_3, claim_validated3]
  repeat (first
    | (simp only [String.reduceEq, reduceIte]; norm_num)
    | norm_num
    | simp)

theorem run_threshold_example_eq :
    run_threshold_example =
      (claim_validated3,
       [{ mkVote "v1" "a" 95 "vouch" 1 with
            weight := 2
            was_correct := some true
            trust_score_impact := some 5 },
        { mkVote "v2" "b" 96 "vouch" 2 with
            weight := 2
            was_correct := some true
            trust_score_impact := some 5 },
        { mkVote "v3" "c" 60 "dispute" 3 with
            was_correct := some false
            trust_score_impact := some (-2) }],
       some q95_3) := by
  simp only [run_threshold_example, apply_votes, stepq_1, stepq_2, stepq_3]

theorem steph_2 :
    process_validation zeroDist 2 (mkVote "v2" "b" 95 "vouch" 2) claim0
        [{ mkVote "v1" "a" 95 "vouch" 1 with weight := 2 }] (some q95_1) =
      (claim0,
       [{ mkVote "v1" "a" 95 "vouch" 1 with weight := 2 },
        { mkVote "v2" "b" 95 "vouch" 2 with weight := 2 }], h95_2) := by
  simp only [process_validation, enrich_validation, compute_distance_km,
    calculate_validation_weight, calculate_trust_weight, calculate_distance_weight,
    tally_vote, update_stats, eval_consensus_step, check_consensus, get_confidence_level,
    round2, newConsensus, mkVote, claim0, zeroDist, strTruthy, pyTruthy,
    trust_adjust, update_claim_status, q95_1, h95_2]
  repeat (first
    | (simp only [String.reduceEq, reduceIte]; norm_num)
    | norm_num
    | simp)

theorem steph_3 :
    process_validation zeroDist 3 (mkVote "v3" "c" 95 "vouch" 3) claim0
        [{ mkVote "v1" "a" 95 "vouch" 1 with weight := 2 },
         { mkVote "v2" "b" 95 "vouch" 2 with weight := 2 }] (some h95_2) =
      (claim_validated3,
       [{ mkVote "v1" "a" 95 "vouch" 1 with
            weight := 2
            was_correct := some true
            trust_score_impact := some 5 },
        { mkVote "v2" "b" 95 "vouch" 2 with
            weight := 2
            was_correct := some true
            trust_score_impact := some 5 },
        { mkVote "v3" "c" 95 "vouch" 3 with
            weight := 2
            was_correct := some true
            trust_score_impact := some 5 }],
       h95_3) := by
  simp only [process_validation, enrich_validation, compute_distance_km,
    calculate_validation_weight, calculate_trust_weight, calculate_distance_weight,
    tally_vote, update_stats, eval_consensus_step, check_consensus, get_confidence_level,
    round2, newConsensus, mkVote, claim0, zeroDist, strTruthy, pyTruthy,
    trust_adjust, update_claim_status, q95_1, h95_2, h95_3, claim_validated3]
  repeat (first
    | (simp only [String.reduceEq, reduceIte]; norm_num)
    | norm_num
    | simp)

theorem run_two_heavy_vouches_eq :
    run_two_heavy_vouches =
      (claim0,
       [{ mkVote "v1" "a" 95 "vouch" 1 with weight := 2 },
        { mkVote "v2" "b" 95 "vouch" 2 with weight := 2 }], some h95_2) := by
  simp only [run_two_heavy_vouches, apply_votes, stepq_1, steph_2]

theorem run_third_heavy_vouch_eq :
    run_third_heavy_vouch =
      (claim_validated3,
       [{ mkVote "v1" "a" 95 "vouch" 1 with
            weight := 2
            was_correct := some true
            trust_score_impact := some 5 },
        { mkVote "v2" "b" 95 "vouch" 2 with
            weight := 2
            was_correct := some true
            trust_score_impact := some 5 },
        { mkVote "v3" "c" 95 "vouch" 3 with
            weight := 2
            was_correct := some true
            trust_score_impact := some 5 }],
       h95_3) := by
  simp only [run_third_heavy_vouch, run_two_heavy_vouches_eq, steph_3]

theorem step_cw1 : concurrent_write_1 = cw1_lit := by
  simp only [concurrent_write_1, process_validation, enrich_validation, compute_distance_km,
    calculate_validation_weight, calculate_trust_weight, calculate_distance_weight,
    tally_vote, update_stats, eval_consensus_step, check_consensus, get_confidence_level,
    round2, newConsensus, mkVote, claim0, zeroDist, strTruthy, pyTruthy,
    trust_adjust, update_claim_status, lost_update_base, cw1_lit]
  repeat (first
    | (simp only [String.reduceEq, reduceIte]; norm_num)
    | norm_num
    | simp)

theorem step_cw2 : concurrent_write_2 = cw2_lit := by
  simp only [concurrent_write_2, process_validation, enrich_validation, compute_distance_km,
    calculate_validation_weight, calculate_trust_weight, calculate_distance_weight,
    tally_vote, update_stats, eval_consensus_step, check_consensus, get_confidence_level,
    round2, newConsensus, mkVote, claim0, zeroDist, strTruthy, pyTruthy,
    trust_adjust, update_claim_status, lost_update_base, cw2_lit]
  repeat (first
    | (simp only [String.reduceEq, reduceIte]; norm_num)
    | norm_num
    | simp)

theorem step_seq2 : sequential_second_write = seq2_lit := by
  simp only [sequential_second_write, step_cw1, process_validation, enrich_validation,
    compute_distance_km, calculate_validation_weight, calculate_trust_weight,
    calculate_distance_weight, tally_vote, update_stats, eval_consensus_step,
    check_consensus, get_confidence_level, round2, newConsensus, mkVote, claim0, zeroDist,
    strTruthy, pyTruthy, trust_adjust, update_claim_status, lost_update_base, cw1_lit,
    seq2_lit]
  repeat (first
    | (simp only [String.reduceEq, reduceIte]; norm_num)
    | norm_num
    | simp)

theorem eval_consensus_step_cases (c : ValidationConsensus) (n : ℕ) :
    ((eval_consensus_step c n).1.consensus_threshold_met = c.consensus_threshold_met
      ∧ (eval_consensus_step c n).1.consensus_reached = c.consensus_reached)
    ∨ ((eval_consensus_step c n).1.consensus_threshold_met = true
      ∧ (eval_consensus_step c n).1.consensus_reached = true) := by
  simp only [eval_consensus_step]
  split_ifs with hmin
  · cases hc : check_consensus { c with minimum_validations_met := decide (c.total_validations ≥ 3) } <;>
      simp [hc]
  · simp

theorem process_validation_flag_cases (distFn : ℚ → ℚ → ℚ → ℚ → ℚ) (now : ℕ)
    (v : Validation) (claim : Claim) (ledger : List Validation)
    (c : ValidationConsensus) :
    (((process_validation distFn now v claim ledger (some c)).2.2.consensus_threshold_met
          = c.consensus_threshold_met
      ∧ (process_validation distFn now v claim ledger (some c)).2.2.consensus_reached
          = c.consensus_reached)
     ∨ ((process_validation distFn now v claim ledger (some c)).2.2.consensus_threshold_met = true
      ∧ (process_validation distFn now v claim ledger (some c)).2.2.consensus_reached = true)) := by
  rw [process_validation_consensus_eq]
  rcases eval_consensus_step_cases
      (update_stats
        (tally_vote ((some c).getD (newConsensus claim.id v.created_at now)) v.action
          (enrich_validation distFn v claim).weight now)
        ((ledger ++ [enrich_validation distFn v claim]).filter
          (fun x => x.claim_id = claim.id))) now with h | h
  · left
    rw [h.1, h.2, (update_stats_consensus_fields _ _).1, (update_stats_consensus_fields _ _).2.1,
      (tally_vote_consensus_fields _ _ _ _).1, (tally_vote_consensus_fields _ _ _ _).2.1]
    exact ⟨rfl, rfl⟩
  · right
    exact h

theorem process_validation_inv (distFn : ℚ → ℚ → ℚ → ℚ → ℚ) (now : ℕ)
    (v : Validation) (claim : Claim) (ledger : List Validation)
    (co : Option ValidationConsensus)
    (h : ∀ c, co = some c → c.consensus_threshold_met = c.consensus_reached) :
    (process_validation distFn now v claim ledger co).2.2.consensus_threshold_met =
      (process_validation distFn now v claim ledger co).2.2.consensus_reached := by
  rw [process_validation_consensus_eq]
  apply eval_consensus_step_inv
  rw [(update_stats_consensus_fields _ _).1, (update_stats_consensus_fields _ _).2.1,
    (tally_vote_consensus_fields _ _ _ _).1, (tally_vote_consensus_fields _ _ _ _).2.1]
  cases co with
  | none => rfl
  | some c => exact h c rfl

theorem apply_votes_inv (distFn : ℚ → ℚ → ℚ → ℚ → ℚ) :
    ∀ (inputs : List (ℕ × Validation)) (claim : Claim) (ledger : List Validation)
      (co : Option ValidationConsensus),
    (∀ c, co = some c → c.consensus_threshold_met = c.consensus_reached) →
    ∀ c, (apply_votes distFn inputs claim ledger co).2.2 = some c →
      c.consensus_threshold_met = c.consensus_reached := by
  intro inputs
  induction inputs with
  | nil => intro claim ledger co h c hc; exact h c hc
  | cons p rest ih =>
      intro claim ledger co h c hc
      obtain ⟨n, v⟩ := p
      simp only [apply_votes] at hc
      refine ih _ _ _ ?_ c hc
      intro c' hc'
      have := process_validation_inv distFn n v claim ledger co h
      rwa [Option.some_inj.mp hc'.symm]

/-! ### Claim theorems -/

/-- C10: in every reachable consensus aggregate, consensus_threshold_met equals
consensus_reached — the freshly created aggregate has both flags false, every
application of process_validation either leaves both flags of a stored
aggregate unchanged or sets both to true in the same step, and along any vote
sequence applied from scratch the stored aggregate keeps the two flags
equal. -/
theorem threshold_met_flag_tracks_reached_flag :
    (∀ cid t now, (newConsensus cid t now).consensus_threshold_met = false
        ∧ (newConsensus cid t now).consensus_reached = false)
    ∧ (∀ (distFn : ℚ → ℚ → ℚ → ℚ → ℚ) (now : ℕ) (v : Validation) (claim : Claim)
        (ledger : List Validation) (c : ValidationConsensus),
        (((process_validation distFn now v claim ledger (some c)).2.2.consensus_threshold_met
              = c.consensus_threshold_met
          ∧ (process_validation distFn now v claim ledger (some c)).2.2.consensus_reached
              = c.consensus_reached)
         ∨ ((process_validation distFn now v claim ledger (some c)).2.2.consensus_threshold_met
              = true
          ∧ (process_validation distFn now v claim ledger (some c)).2.2.consensus_reached
              = true)))
    ∧ (∀ (distFn : ℚ → ℚ → ℚ → ℚ → ℚ) (inputs : List (ℕ × Validation)) (claim : Claim),
        ((apply_votes distFn inputs claim [] none).2.2).elim True
          (fun c => c.consensus_threshold_met = c.consensus_reached)) :=
  ⟨fun _ _ _ => ⟨rfl, rfl⟩,
   fun distFn now v claim ledger c =>
     process_validation_flag_cases distFn now v claim ledger c,
   fun distFn inputs claim => by
     cases hc : (apply_votes distFn inputs claim [] none).2.2 with
     | none => trivial
     | some c =>
         exact apply_votes_inv distFn inputs claim [] none (by intro c' h; cases h) c hc⟩

/-- C1 (counterexample): after three trust-60 vouches the aggregate has
consensus_reached = true with consensus_percentage 100; applying one further
trust-60 dispute vote through process_validation changes consensus_percentage
to 75 — so a subsequent vote application does change consensus_percentage,
contradicting the claim. -/
theorem further_vote_changes_consensus_percentage :
    run_three_vouches.2.2.map (fun c => c.consensus_reached) = some true
    ∧ run_three_vouches.2.2.map (fun c => c.consensus_percentage) = some (some 100)
    ∧ run_fourth_dispute.2.2.consensus_percentage = some 75
    ∧ decide ((some (75 : ℚ) : Option ℚ) = some 100) = false := by
  refine ⟨?_, ?_, ?_, by decide⟩
  · rw [run_three_vouches_eq]; rfl
  · rw [run_three_vouches_eq]; rfl
  · rw [run_fourth_dispute_eq]; rfl

/-- C1 (amended): once a stored aggregate has consensus_reached = true, no
subsequent process_validation application flips it back to false (the deciding
fields consensus_action / consensus_percentage, however, are overwritten
whenever the re-run evaluator reports a reached verdict again, as the
counterexample shows). -/
theorem consensus_reached_is_monotone (distFn : ℚ → ℚ → ℚ → ℚ → ℚ) (now : ℕ)
    (v : Validation) (claim : Claim) (ledger : List Validation)
    (c : ValidationConsensus) (h : c.consensus_reached = true) :
    (process_validation distFn now v claim ledger (some c)).2.2.consensus_reached = true := by
  rw [process_validation_consensus_eq]
  apply eval_consensus_step_reached_mono
  rw [(update_stats_consensus_fields _ _).1, (tally_vote_consensus_fields _ _ _ _).1]
  exact h

/-- C1 (witness): the monotonicity theorem applied to a concrete reached
aggregate and one further concrete vote. -/
theorem consensus_reached_is_monotone_witness :
    reachedConsensusLit.consensus_reached = true
    ∧ (process_validation zeroDist 9 (mkVote "v9" "z" 60 "vouch" 9) claim0 []
        (some reachedConsensusLit)).2.2.consensus_reached = true :=
  ⟨rfl, consensus_reached_is_monotone zeroDist 9 (mkVote "v9" "z" 60 "vouch" 9) claim0 []
    reachedConsensusLit rfl⟩

/-- C3 (counterexample): on the spec's [2.0, 2.0, 1.0] / [vouch, vouch,
dispute] example the engine does reach consensus at 80%, but
_get_confidence_level(80) is "medium" (the "high" band starts at 85), so the
claimed confidence level "high" is wrong. -/
theorem threshold_example_confidence_not_high :
    run_threshold_example.2.2.map (fun c => c.confidence_level) = some (some "medium")
    ∧ get_confidence_level 80 = "medium"
    ∧ decide ((some "medium" : Option String) = some "high") = false := by
  refine ⟨?_, ?_, by decide⟩
  · rw [run_threshold_example_eq]; rfl
  · rfl

/-- C3 (amended): three votes of weights [2.0, 2.0, 1.0] (trust scores 95, 96,
60) with actions [vouch, vouch, dispute] reach consensus with action
"validated", percentage 80 and confidence level "medium". -/
theorem threshold_example_reaches_80_medium :
    run_threshold_example.2.2.map (fun c => c.consensus_reached) = some true
    ∧ run_threshold_example.2.2.map (fun c => c.consensus_action) = some (some "validated")
    ∧ run_threshold_example.2.2.map (fun c => c.consensus_percentage) = some (some 80)
    ∧ run_threshold_example.2.2.map (fun c => c.confidence_level) = some (some "medium")
    ∧ run_threshold_example.2.1.map (fun v => v.weight) = [2, 2, 1] := by
  rw [run_threshold_example_eq]
  exact ⟨rfl, rfl, rfl, rfl, rfl⟩

/-- C5: below three votes the engine never reaches consensus — the first vote
of a claim leaves consensus_reached false, any vote that brings the total to
fewer than 3 leaves consensus_reached unchanged, two trust-95 vouches (weight
2.0 each, a 100% vouch share) do not reach consensus, a third trust-95 vouch
does, and in general once total_validations ≥ 3 a weighted share ≥ 70% for
vouch or dispute makes the evaluation step report consensus. -/
theorem minimum_votes_gate :
    (∀ (distFn : ℚ → ℚ → ℚ → ℚ → ℚ) (now : ℕ) (v : Validation) (claim : Claim)
        (ledger : List Validation),
      (process_validation distFn now v claim ledger none).2.2.consensus_reached = false)
    ∧ (∀ (distFn : ℚ → ℚ → ℚ → ℚ → ℚ) (now : ℕ) (v : Validation) (claim : Claim)
        (ledger : List Validation) (c : ValidationConsensus),
        c.total_validations + 1 < 3 →
        (process_validation distFn now v claim ledger (some c)).2.2.consensus_reached =
          c.consensus_reached)
    ∧ (run_two_heavy_vouches.2.2.map (fun c => c.consensus_reached) = some false
        ∧ run_two_heavy_vouches.2.2.map (fun c => c.vouch_weight) = some 4
        ∧ run_two_heavy_vouches.2.2.map (fun c => c.total_weight) = some 4)
    ∧ run_third_heavy_vouch.2.2.consensus_reached = true
    ∧ (∀ (c : ValidationConsensus) (now : ℕ), c.total_validations ≥ 3 →
        (70 ≤ c.vouch_weight / c.total_weight * 100
          ∨ 70 ≤ c.dispute_weight / c.total_weight * 100) →
        (eval_consensus_step c now).1.consensus_reached = true) := by
  refine ⟨?_, ?_, ?_, ?_, ?_⟩
  · intro distFn now v claim ledger
    rw [process_validation_consensus_eq]
    rw [eval_consensus_step_below_min]
    · rw [(update_stats_consensus_fields _ _).1, (tally_vote_consensus_fields _ _ _ _).1]
      rfl
    · rw [(update_stats_consensus_fields _ _).2.2, (tally_vote_consensus_fields _ _ _ _).2.2]
      norm_num [newConsensus]
  · intro distFn now v claim ledger c h
    rw [process_validation_consensus_eq]
    rw [eval_consensus_step_below_min]
    · rw [(update_stats_consensus_fields _ _).1, (tally_vote_consensus_fields _ _ _ _).1]
      rfl
    · rw [(update_stats_consensus_fields _ _).2.2, (tally_vote_consensus_fields _ _ _ _).2.2]
      simpa using h
  · rw [run_two_heavy_vouches_eq]
    exact ⟨rfl, rfl, rfl⟩
  · rw [run_third_heavy_vouch_eq]; rfl
  · intro c now h3 hshare
    simp only [eval_consensus_step]
    have hmin : decide (c.total_validations ≥ 3) = true := by simpa using h3
    simp only [hmin, if_true]
    have htw : ¬ c.total_weight = 0 := by
      intro h0
      rcases hshare with h | h <;> rw [h0] at h <;> simp [div_zero] at h <;> linarith
    simp only [check_consensus, htw, if_false]
    rcases hshare with h | h
    · rw [if_pos (by simpa using h)]
    · by_cases hv : c.vouch_weight / c.total_weight * 100 ≥ 70
      · rw [if_pos (by simpa using hv)]
      · rw [if_neg (by simpa using hv), if_pos (by simpa using h)]

/-- C5 (witness): the gate theorem applied at concrete inputs — a second vote
on a one-vote aggregate keeps consensus_reached as it was, and an aggregate
with 3 votes whose vouch share is 100% is evaluated as reached. -/
theorem minimum_votes_gate_witness :
    (c60_1.total_validations + 1 < 3
      ∧ (process_validation zeroDist 2 (mkVote "v2" "b" 60 "vouch" 2) claim0
          [mkVote "v1" "a" 60 "vouch" 1] (some c60_1)).2.2.consensus_reached =
            c60_1.consensus_reached)
    ∧ (gate_witness_consensus.total_validations ≥ 3
      ∧ (eval_consensus_step gate_witness_consensus 7).1.consensus_reached = true) :=
  ⟨⟨by decide,
    minimum_votes_gate.2.1 zeroDist 2 (mkVote "v2" "b" 60 "vouch" 2) claim0
      [mkVote "v1" "a" 60 "vouch" 1] c60_1 (by decide)⟩,
   ⟨by decide,
    minimum_votes_gate.2.2.2.2 gate_witness_consensus 7 (by decide)
      (Or.inl (by simp only [gate_witness_consensus, newConsensus, div_one, one_mul]; decide))⟩⟩

/-- C6 (counterexample): two votes submitted at times 1 and 2 are returned by
get_claim_validations as [second, first] — descending created_at (Mongo sort
"-created_at"), not submission order. -/
theorem list_votes_not_in_submission_order :
    get_claim_validations [mkVote "v1" "a" 60 "vouch" 1, mkVote "v2" "b" 60 "vouch" 2] "c1" =
      [mkVote "v2" "b" 60 "vouch" 2, mkVote "v1" "a" 60 "vouch" 1]
    ∧ decide
        (get_claim_validations [mkVote "v1" "a" 60 "vouch" 1, mkVote "v2" "b" 60 "vouch" 2] "c1" =
          [mkVote "v1" "a" 60 "vouch" 1, mkVote "v2" "b" 60 "vouch" 2]) = false := by
  constructor <;> decide

/-- C6 (amended): get_claim_validations returns exactly the votes recorded for
the claim (a permutation of the claim's votes, i.e. nothing added or dropped),
ordered by created_at descending — newest first, the reverse of submission
order. -/
theorem list_votes_all_newest_first (votes : List Validation) (cid : String) :
    (get_claim_validations votes cid).Perm (votes.filter (fun v => v.claim_id = cid))
    ∧ List.Sorted (fun a b : Validation => b.created_at ≤ a.created_at)
        (get_claim_validations votes cid)
    ∧ ∀ v : Validation, v ∈ get_claim_validations votes cid ↔ (v ∈ votes ∧ v.claim_id = cid) := by
  haveI : IsTotal Validation (fun a b : Validation => b.created_at ≤ a.created_at) :=
    ⟨fun a b => le_total b.created_at a.created_at⟩
  haveI : IsTrans Validation (fun a b : Validation => b.created_at ≤ a.created_at) :=
    ⟨fun _ _ _ hab hbc => le_trans hbc hab⟩
  refine ⟨List.perm_insertionSort _ _, List.sorted_insertionSort _ _, fun v => ?_⟩
  simp [get_claim_validations, List.mem_insertionSort, List.mem_filter]

/-- C7: after consensus, update_validator_trust_scores maps trust_adjust over
every vote of the claim; an unsure vote gets impact 0 and was_correct = none;
a vote agreeing with the consensus action (vouch+validated or
dispute+rejected) gets was_correct = true and impact +5 / +3 / +2 by the
voter's snapshotted trust tier (≥80 / ≥60 / below); a disagreeing vouch or
dispute gets was_correct = false and impact −3 / −2 / −1 by the same tiers. -/
theorem trust_adjustment_rules (a : String) (votes : List Validation) (v : Validation) :
    update_validator_trust_scores a votes = votes.map (trust_adjust a)
    ∧ (v.action = "unsure" →
        (trust_adjust a v).trust_score_impact = some 0
        ∧ (trust_adjust a v).was_correct = none)
    ∧ ((v.action = "vouch" ∧ a = "validated") ∨ (v.action = "dispute" ∧ a = "rejected") →
        (trust_adjust a v).was_correct = some true
        ∧ (trust_adjust a v).trust_score_impact =
            some (if v.validator_trust_score ≥ 80 then 5
              else if v.validator_trust_score ≥ 60 then 3 else 2))
    ∧ ((v.action = "vouch" ∨ v.action = "dispute") →
        ¬ ((v.action = "vouch" ∧ a = "validated") ∨ (v.action = "dispute" ∧ a = "rejected")) →
        (trust_adjust a v).was_correct = some false
        ∧ (trust_adjust a v).trust_score_impact =
            some (if v.validator_trust_score ≥ 80 then -3
              else if v.validator_trust_score ≥ 60 then -2 else -1)) := by
  refine ⟨rfl, ?_, ?_, ?_⟩
  · intro hu
    simp [trust_adjust, hu]
  · intro hagree
    have hne : ¬ v.action = "unsure" := by
      rcases hagree with ⟨h, _⟩ | ⟨h, _⟩ <;> rw [h] <;> decide
    refine ⟨?_, ?_⟩
    · simp [trust_adjust, if_neg hne, if_pos hagree]
    · simp only [trust_adjust, if_neg hne, if_pos hagree]
      split_ifs <;> norm_num
  · intro hva hdis
    have hne : ¬ v.action = "unsure" := by
      rcases hva with h | h <;> rw [h] <;> decide
    refine ⟨?_, ?_⟩
    · simp [trust_adjust, if_neg hne, if_neg hdis]
    · simp only [trust_adjust, if_neg hne, if_neg hdis]
      split_ifs <;> norm_num

/-- C7 (witness): consensus "validated" — a trust-85 voucher gains +5 and is
correct, a trust-40 disputer loses 1 and is incorrect, an unsure voter gets 0
and a null outcome (the spec's own trust-adjustment example). -/
theorem trust_adjustment_rules_witness :
    (trust_adjust "validated" (mkVote "w1" "x" 85 "vouch" 1)).was_correct = some true
    ∧ (trust_adjust "validated" (mkVote "w1" "x" 85 "vouch" 1)).trust_score_impact = some 5
    ∧ (trust_adjust "validated" (mkVote "w2" "y" 40 "dispute" 2)).was_correct = some false
    ∧ (trust_adjust "validated" (mkVote "w2" "y" 40 "dispute" 2)).trust_score_impact = some (-1)
    ∧ (trust_adjust "validated" (mkVote "w3" "z" 50 "unsure" 3)).trust_score_impact = some 0
    ∧ (trust_adjust "validated" (mkVote "w3" "z" 50 "unsure" 3)).was_correct = none := by
  have h1 := (trust_adjustment_rules "validated" [] (mkVote "w1" "x" 85 "vouch" 1)).2.2.1
    (Or.inl ⟨rfl, rfl⟩)
  have h2 := (trust_adjustment_rules "validated" [] (mkVote "w2" "y" 40 "dispute" 2)).2.2.2
    (Or.inr rfl) (by decide)
  have h3 := (trust_adjustment_rules "validated" [] (mkVote "w3" "z" 50 "unsure" 3)).2.1 rfl
  refine ⟨h1.1, ?_, h2.1, ?_, h3.1, h3.2⟩
  · rw [h1.2]; rfl
  · rw [h2.2]; rfl

/-- C9 (implicit): a latitude or longitude equal to 0 fails the Python
truthiness test all([...]) in process_validation, so even with both locations
supplied the distance is never computed: distance_to_claim keeps its previous
(unset) value and the vote weight is the trust weight alone. -/
theorem zero_coordinate_treated_as_missing (distFn : ℚ → ℚ → ℚ → ℚ → ℚ)
    (v : Validation) (claim : Claim) (co vl : Coord)
    (hc : claim.coordinates = some co) (hv : v.validator_location = some vl)
    (hz : co.lat = some 0 ∨ co.lon = some 0 ∨ vl.lat = some 0 ∨ vl.lon = some 0) :
    compute_distance_km distFn v claim = none
    ∧ (enrich_validation distFn v claim).distance_to_claim = v.distance_to_claim
    ∧ (enrich_validation distFn v claim).weight =
        calculate_trust_weight v.validator_trust_score := by
  have hd : compute_distance_km distFn v claim = none := by
    unfold compute_distance_km
    split_ifs with h1
    · simp only [hc, hv]
      have hfalse : ¬ (pyTruthy co.lat = true ∧ pyTruthy co.lon = true
          ∧ pyTruthy vl.lat = true ∧ pyTruthy vl.lon = true) := by
        rcases hz with h | h | h | h <;> rw [h] <;> simp [pyTruthy]
      simp [hfalse]
    · rfl
  refine ⟨hd, ?_, ?_⟩
  · simp only [enrich_validation, hd]
  · simp only [enrich_validation, hd, calculate_validation_weight, one_mul]

/-- C9 (witness): the theorem at concrete geodata with claim latitude 0 and a
distance function returning 42: the distance stays unset and the weight is the
trust weight of the trust-60 voter. -/
theorem zero_coordinate_treated_as_missing_witness :
    claim_geo.coordinates = some ⟨some 0, some 36⟩
    ∧ compute_distance_km dist42 vote_geo claim_geo = none
    ∧ (enrich_validation dist42 vote_geo claim_geo).distance_to_claim =
        vote_geo.distance_to_claim
    ∧ (enrich_validation dist42 vote_geo claim_geo).weight =
        calculate_trust_weight vote_geo.validator_trust_score := by
  have h := zero_coordinate_treated_as_missing dist42 vote_geo claim_geo
    ⟨some 0, some 36⟩ ⟨some 1, some 36⟩ rfl rfl (Or.inl rfl)
  exact ⟨rfl, h.1, h.2.1, h.2.2⟩

/-- C2: the delete guard holds — deleting a vote of a claim whose aggregate
has consensus_reached = true fails with ConsensusAlreadyReached and changes
nothing — but when consensus is not reached the route deletes the vote and
then performs NO recomputation: the stored aggregate still counts 2 votes of
total weight 2 although only one vote (weight 1) remains, while an actual
rebuild from the remaining votes (rebuild_aggregate, modelled from the spec)
gives 1 and 1.  This contradicts the claim's recomputation half. -/
theorem delete_vote_guard_but_no_recompute :
    delete_validation delete_state_reached "v1" user_a =
      (some .ConsensusAlreadyReached, delete_state_reached)
    ∧ delete_validation delete_state "v1" user_a =
        (none, { delete_state with validations := [mkVote "v2" "b" 60 "vouch" 2] })
    ∧ (delete_validation delete_state "v1" user_a).2.consensuses = [c60_2]
    ∧ c60_2.total_validations = 2
    ∧ (rebuild_aggregate c60_2 [mkVote "v2" "b" 60 "vouch" 2] 9).total_validations = 1
    ∧ c60_2.total_weight = 2
    ∧ (rebuild_aggregate c60_2 [mkVote "v2" "b" 60 "vouch" 2] 9).total_weight = 1
    ∧ decide ((2 : ℕ) = 1) = false := by
  refine ⟨by decide, by decide, by decide, by decide, by decide, ?_, ?_, by decide⟩
  · norm_num [c60_2, c60_1, newConsensus]
  · norm_num [rebuild_aggregate, tally_vote, mkVote, c60_2, c60_1, newConsensus,
      List.foldl]

/-- C4: process_validation reads the stored aggregate with find_one and writes
it back with save, with no per-claim lock, transaction or version check, so
the interleaving read1-read2-write1-write2 of two handlers for the same claim
is a legal execution; in it both handlers read total_weight = 10, each adds
its weight-2.0 vote, and the last save wins: the store ends at 12, not the 14
that the linearized execution produces — the claimed per-claim linearization
does not exist in the code (total_weight ≠ sum of all applied weights). -/
theorem concurrent_votes_lose_update :
    lost_update_base.total_weight = 10
    ∧ concurrent_write_1.total_weight = 12
    ∧ concurrent_write_2.total_weight = 12
    ∧ sequential_second_write.total_weight = 14
    ∧ decide ((12 : ℚ) = 14) = false := by
  refine ⟨by decide, ?_, ?_, ?_, by decide⟩
  · rw [step_cw1]; decide
  · rw [step_cw2]; decide
  · rw [step_seq2]; decide

/-- C8: create_validation rejects a dispute without a (truthy) reason with
MissingReason, a repeated (claimId, validatorId) pair with DuplicateVote and a
vote by the claim owner with SelfValidation, each before any write: the
returned store is exactly the input store (no vote persisted, aggregate
untouched).  Guards are checked in the source order: action validity, dispute
reason, claim existence, duplicate, self-validation. -/
theorem cast_vote_error_guards (distFn : ℚ → ℚ → ℚ → ℚ → ℚ) (now : ℕ) (newId : String)
    (st : SystemState) (u : User) (d : ValidationCreate) :
    (d.action = "dispute" → strTruthy d.reason = false →
      create_validation distFn now newId st u d = (some .MissingReason, st))
    ∧ (∀ claim : Claim,
        (d.action = "vouch" ∨ d.action = "dispute" ∨ d.action = "unsure") →
        ¬ (d.action = "dispute" ∧ ¬ strTruthy d.reason = true) →
        findClaim st d.claim_id = some claim →
        st.validations.any (fun v => v.claim_id = d.claim_id ∧ v.validator_id = u.id) = true →
        create_validation distFn now newId st u d = (some .DuplicateVote, st))
    ∧ (∀ claim : Claim,
        (d.action = "vouch" ∨ d.action = "dispute" ∨ d.action = "unsure") →
        ¬ (d.action = "dispute" ∧ ¬ strTruthy d.reason = true) →
        findClaim st d.claim_id = some claim →
        st.validations.any (fun v => v.claim_id = d.claim_id ∧ v.validator_id = u.id) = false →
        claim.user_id = u.id →
        create_validation distFn now newId st u d = (some .SelfValidation, st)) := by
  refine ⟨?_, ?_, ?_⟩
  · intro h1 h2
    simp only [create_validation]
    rw [if_neg (by simp [h1]), if_pos ⟨h1, by simp [h2]⟩]
  · intro claim hval hnr hfind hdup
    simp only [create_validation]
    rw [if_neg (not_not_intro hval), if_neg hnr, hfind]
    simp only [hdup, if_true]
  · intro claim hval hnr hfind hdup hself
    simp only [create_validation]
    rw [if_neg (not_not_intro hval), if_neg hnr, hfind]
    simp only [hdup, Bool.false_eq_true, if_false, if_pos hself]

/-- C8 (witness): the guard theorem at a concrete store — validator "a"
voting again is a DuplicateVote, the claim owner voting is a SelfValidation,
and a reason-less dispute is a MissingReason; each returns the store
unchanged. -/
theorem cast_vote_error_guards_witness :
    create_validation zeroDist 9 "n1" cast_state user_a
        { claim_id := "c1", action := "vouch", reason := none, validator_location := none } =
      (some .DuplicateVote, cast_state)
    ∧ create_validation zeroDist 9 "n2" cast_state user_owner
        { claim_id := "c1", action := "vouch", reason := none, validator_location := none } =
      (some .SelfValidation, cast_state)
    ∧ create_validation zeroDist 9 "n3" cast_state user_b
        { claim_id := "c1", action := "dispute", reason := none, validator_location := none } =
      (some .MissingReason, cast_state) :=
  ⟨(cast_vote_error_guards zeroDist 9 "n1" cast_state user_a
      { claim_id := "c1", action := "vouch", reason := none, validator_location := none }).2.1
      claim0 (Or.inl rfl) (by decide) rfl rfl,
   (cast_vote_error_guards zeroDist 9 "n2" cast_state user_owner
      { claim_id := "c1", action := "vouch", reason := none, validator_location := none }).2.2
      claim0 (Or.inl rfl) (by decide) rfl rfl rfl,
   (cast_vote_error_guards zeroDist 9 "n3" cast_state user_b
      { claim_id := "c1", action := "dispute", reason := none, validator_location := none }).1
      rfl rfl⟩

end LandRegistry
